import Mathlib

/-!
Verification of the iridium-sbd driver (sunstone-advisory/iridium-sbd).

The development shallowly embeds the AT request/response engine and the
SBD session orchestration of `src/index.ts` (together with the checksum
helper of `src/utils.ts`) as executable Lean definitions, and proves the
behavioural properties stated about them.

Modelling conventions:
  - JS strings are Lean `String`s; inbound data lines are CRLF-stripped.
  - Node `Buffer`s are `List Nat` (each entry a byte value).
  - The regular expressions of the source are modelled as decidable
    `String → Bool` tests, each faithful to the regex it embeds
    (`test` with a `^` anchor means: match at the start of the line).
  - Promise resolution/rejection is modelled by explicit outcome values;
    the events emitted while one line is handled are collected in a list.
  - The multi-step pipelines (`sendTextMessage`, `sendBinaryMessage`,
    `waitForNetwork`, `writeBinaryShortBurstData`) are modelled
    denotationally: an environment fixes the eventual outcome of each
    sub-command, and the pipeline function returns the ordered list of
    commands it issues together with the settled outcome.
-/

namespace Iridium

/-- Boolean prefix test on character lists (used to model `^literal` regexes). -/
def startsWithChars : List Char → List Char → Bool
  | [], _ => true
  | _ :: _, [] => false
  | p :: ps, c :: cs => p == c && startsWithChars ps cs

/-- `const OK_REGEXP = /^OK$/` — the line is exactly `OK`. -/
def OK_REGEXP (s : String) : Bool := s == "OK"

/-- `const ANY_REGEXP = /^.+/` — any non-empty line. -/
def ANY_REGEXP (s : String) : Bool := !s.isEmpty

/-- `const ERROR_REGEXP = /^ERROR/` — the line starts with `ERROR`
(note: no `$` anchor in `src/index.ts`). -/
def ERROR_REGEXP (s : String) : Bool :=
  startsWithChars ['E', 'R', 'R', 'O', 'R'] s.data

/-- `const SBDRING_REGEXP = /^SBDRING/` — the line starts with `SBDRING`. -/
def SBDRING_REGEXP (s : String) : Bool :=
  startsWithChars ['S', 'B', 'D', 'R', 'I', 'N', 'G'] s.data

/-- `const DEFAULT_SIMPLE_TIMEOUT_MS = 2000`. -/
def DEFAULT_SIMPLE_TIMEOUT_MS : Int := 2000

/-- `const DEFAULT_LONG_TIMEOUT_MS = 30000`. -/
def DEFAULT_LONG_TIMEOUT_MS : Int := 30000

/-- `const DEFAULT_SESSION_TIMEOUT_MS = 60000`. -/
def DEFAULT_SESSION_TIMEOUT_MS : Int := 60000

/-- `const INDEFINITE_TIMEOUT = -1`. -/
def INDEFINITE_TIMEOUT : Int := -1

/-- The payload union of `IridiumCommand`: either `text` or `buffer`. -/
inductive Payload where
  | text (t : String)
  | buffer (b : List Nat)
deriving DecidableEq

/-- `IridiumCommand` of `src/index.ts`: the descriptor of one
request/response exchange. Regexes are modelled as decidable tests. -/
structure IridiumCommand where
  payload : Payload
  commandDescription : String
  timeoutMs : Int
  successRegex : String → Bool
  bufferRegex : Option (String → Bool) := none
  errorRegex : Option (String → Bool) := none

/-- The mutable fields of `IridiumController` that the engine touches:
the serial-open flag, the in-flight command slot (`command`), the
accumulated response (`#response`), the installed resolve/reject
callbacks (modelled by presence flags) and the armed timeout timer. -/
structure EngineState where
  serialOpen : Bool
  command : Option IridiumCommand
  response : String
  resolveFn : Bool
  rejectFn : Bool
  timer : Bool

/-- The externally observable effects produced while the engine handles
one inbound line or a timer expiry. -/
inductive Emitted where
  | ringAlert
  | resolved (resp : String)
  | rejectedError (resp : String)
  | rejectedTimeout
deriving DecidableEq

/-- `#clearContext` of `src/index.ts`: reset the response buffer, delete
`resolveFn`, `rejectFn` and `command`, and `clearTimeout` the timer. -/
def clearContext (s : EngineState) : EngineState :=
  { s with response := "", resolveFn := false, rejectFn := false,
           command := none, timer := false }

/-- `#handleData` of `src/index.ts`: interpret one inbound line against
the current command context. Returns the successor state together with
the list of emitted effects. -/
def handleData (s : EngineState) (data : String) : EngineState × List Emitted :=
  -- check for unsolicited message types
  if SBDRING_REGEXP data then
    (s, [Emitted.ringAlert])
  else
    match s.command with
    | none =>
        -- no active handler: warn and discard
        (s, [])
    | some cmd =>
        -- if this is an unexpected error invoke the reject fn
        if (cmd.errorRegex.getD ERROR_REGEXP) data then
          (clearContext s, [Emitted.rejectedError s.response])
        else
          -- append the response to the buffer
          let s1 :=
            match cmd.bufferRegex with
            | some br =>
                if br data && decide (cmd.payload ≠ Payload.text data) then
                  { s with response :=
                      if s.response == "" then data else s.response ++ "\n" ++ data }
                else s
            | none => s
          -- if this is the expected end invoke the resolve fn
          if cmd.successRegex data then
            (clearContext s1, [Emitted.resolved s1.response])
          else
            (s1, [])

/-- How an `#execute` call starts: immediately rejected (busy slot or
closed transport), or accepted into the slot. -/
inductive ExecStart where
  | rejectedBusy
  | rejectedNotOpen
  | started
deriving DecidableEq

/-- What `#execute` writes to the serial transport. -/
inductive TxWrite where
  | line (s : String)
  | raw (b : List Nat)
deriving DecidableEq

/-- `#execute` of `src/index.ts`: reject with busy if a command is in
flight, reject with not-open if the serial port is closed; otherwise
install the command, arm the timer when `timeoutMs > 0`, and write the
payload (text gets a trailing CRLF, buffers go out verbatim). -/
def execute (s : EngineState) (cmd : IridiumCommand) :
    EngineState × List TxWrite × ExecStart :=
  if s.command.isSome then
    (s, [], ExecStart.rejectedBusy)
  else if !s.serialOpen then
    (s, [], ExecStart.rejectedNotOpen)
  else
    let s1 : EngineState :=
      { s with command := some cmd, resolveFn := true, rejectFn := true,
               timer := decide (cmd.timeoutMs > 0) }
    match cmd.payload with
    | Payload.buffer b => (s1, [TxWrite.raw b], ExecStart.started)
    | Payload.text t => (s1, [TxWrite.line (t ++ "\r\n")], ExecStart.started)

/-- The timeout callback installed by `#execute`: when the timer is still
armed it clears the context and rejects the pending request. -/
def timeoutFire (s : EngineState) : EngineState × List Emitted :=
  if s.timer then (clearContext s, [Emitted.rejectedTimeout]) else (s, [])

/-- The controller's initial state: port closed, no command in flight,
`#response` initialised to the empty string. -/
def initialState : EngineState :=
  { serialOpen := false, command := none, response := "",
    resolveFn := false, rejectFn := false, timer := false }

/-- C1: every inbound line matching `^SBDRING$` (i.e. the line `SBDRING`
itself) makes `#handleData` emit the `ring-alert` event exactly once and
return with the state untouched: no resolve, no reject, no append to the
accumulated response, and the in-flight slot and timer are unchanged,
whether or not a command is in flight. -/
theorem C1_ring_alert (s : EngineState) (data : String)
    (h : data = "SBDRING") :
    handleData s data = (s, [Emitted.ringAlert]) := by
  subst h
  simp [handleData, SBDRING_REGEXP, startsWithChars]

/-- Witness for C1 at a concrete in-flight state and a concrete idle state. -/
theorem C1_ring_alert_witness :
    handleData { serialOpen := true,
                 command := some { payload := Payload.text "AT",
                                   commandDescription := "d",
                                   timeoutMs := 2000,
                                   successRegex := OK_REGEXP },
                 response := "x", resolveFn := true, rejectFn := true,
                 timer := true } "SBDRING"
      = ({ serialOpen := true,
           command := some { payload := Payload.text "AT",
                             commandDescription := "d",
                             timeoutMs := 2000,
                             successRegex := OK_REGEXP },
           response := "x", resolveFn := true, rejectFn := true,
           timer := true }, [Emitted.ringAlert])
    ∧ handleData initialState "SBDRING" = (initialState, [Emitted.ringAlert]) :=
  ⟨C1_ring_alert _ _ rfl, C1_ring_alert _ _ rfl⟩

/-- Sample command used by concrete witnesses: a plain `OK`-terminated
text command with the default error pattern. -/
def sampleCmd : IridiumCommand :=
  { payload := Payload.text "AT", commandDescription := "sample",
    timeoutMs := 2000, successRegex := OK_REGEXP }

/-- Sample busy engine state: `sampleCmd` occupies the in-flight slot. -/
def sampleBusy : EngineState :=
  { serialOpen := true, command := some sampleCmd, response := "partial",
    resolveFn := true, rejectFn := true, timer := true }

/-- C4: while another command occupies the in-flight slot, `#execute`
rejects immediately with the busy error, writes nothing, and leaves the
state (including the in-flight command) undisturbed; with a free slot but
a closed serial transport it rejects immediately with the not-open error
and leaves the slot unoccupied. -/
theorem C4_execute_guards (s : EngineState) (cmd : IridiumCommand) :
    (s.command.isSome = true →
      execute s cmd = (s, [], ExecStart.rejectedBusy))
    ∧ (s.command = none → s.serialOpen = false →
      execute s cmd = (s, [], ExecStart.rejectedNotOpen)) := by
  constructor
  · intro h
    simp [execute, h]
  · intro h1 h2
    simp [execute, h1, h2]

/-- Witness for C4: a busy state rejects busy; a closed idle state
rejects not-open. -/
theorem C4_execute_guards_witness :
    execute sampleBusy sampleCmd = (sampleBusy, [], ExecStart.rejectedBusy)
    ∧ execute initialState sampleCmd
        = (initialState, [], ExecStart.rejectedNotOpen) :=
  ⟨(C4_execute_guards sampleBusy sampleCmd).1 rfl,
   (C4_execute_guards initialState sampleCmd).2 rfl rfl⟩

/-- A line that starts with `ERROR` does not start with `SBDRING`
(their first characters differ). -/
theorem sbdring_of_error_false (data : String)
    (h : ERROR_REGEXP data = true) : SBDRING_REGEXP data = false := by
  unfold ERROR_REGEXP at h
  unfold SBDRING_REGEXP
  cases hl : data.data with
  | nil => rw [hl] at h; simp [startsWithChars] at h
  | cons c cs =>
      rw [hl] at h
      simp only [startsWithChars, Bool.and_eq_true, beq_iff_eq] at h
      obtain ⟨hc, -⟩ := h
      simp [startsWithChars, ← hc]

/-- Classifier used to state C5: did the engine reject the pending
request through the error-pattern path? -/
def isRejection : Emitted → Bool
  | Emitted.rejectedError _ => true
  | _ => false

/-- Counterexample to C5 as stated: with the default error pattern the
engine also classifies the line `ERRORX` — which is not equal to
`ERROR` — as a failure line (the pattern `/^ERROR/` is unanchored at the
end). -/
theorem C5_counterexample :
    (handleData sampleBusy "ERRORX").2 = [Emitted.rejectedError "partial"]
    ∧ "ERRORX" ≠ "ERROR" := by
  constructor
  · decide
  · decide

/-- C5 (amended): for a command without an explicit `errorPattern`, an
inbound line is classified as a failure line iff it starts with `ERROR`;
on such a line the pending request is rejected with the accumulated
response string and the in-flight slot is cleared. -/
theorem C5_amended (s : EngineState) (cmd : IridiumCommand) (data : String)
    (hc : s.command = some cmd) (he : cmd.errorRegex = none) :
    ((handleData s data).2.any isRejection = true
      ↔ startsWithChars ['E', 'R', 'R', 'O', 'R'] data.data = true)
    ∧ (startsWithChars ['E', 'R', 'R', 'O', 'R'] data.data = true →
      handleData s data = (clearContext s, [Emitted.rejectedError s.response])) := by
  have herr : (cmd.errorRegex.getD ERROR_REGEXP) = ERROR_REGEXP := by
    rw [he]; rfl
  by_cases h1 : SBDRING_REGEXP data
  · constructor
    · constructor
      · intro h
        simp [handleData, h1, isRejection] at h
      · intro h
        have := sbdring_of_error_false data h
        rw [h1] at this
        exact absurd this (by decide)
    · intro h
      have := sbdring_of_error_false data h
      rw [h1] at this
      exact absurd this (by decide)
  · by_cases h2 : ERROR_REGEXP data
    · have hd : handleData s data
          = (clearContext s, [Emitted.rejectedError s.response]) := by
        simp [handleData, h1, hc, herr, h2]
      rw [hd]
      refine ⟨?_, fun _ => rfl⟩
      unfold ERROR_REGEXP at h2
      simp [isRejection, h2]
    · constructor
      · constructor
        · intro h
          by_cases h3 : cmd.successRegex data
          · simp [handleData, h1, hc, herr, h2, h3, isRejection] at h
          · simp [handleData, h1, hc, herr, h2, h3, isRejection] at h
        · intro h
          unfold ERROR_REGEXP at h2
          exact absurd h h2
      · intro h
        unfold ERROR_REGEXP at h2
        exact absurd h h2

/-- Witness for C5 (amended): a line `ERROR CODE` rejects the pending
request of `sampleBusy` with the accumulated response and clears the
slot. -/
theorem C5_amended_witness :
    ((handleData sampleBusy "ERROR CODE").2.any isRejection = true
      ↔ startsWithChars ['E', 'R', 'R', 'O', 'R'] "ERROR CODE".data = true)
    ∧ (startsWithChars ['E', 'R', 'R', 'O', 'R'] "ERROR CODE".data = true →
      handleData sampleBusy "ERROR CODE"
        = (clearContext sampleBusy, [Emitted.rejectedError sampleBusy.response])) :=
  C5_amended sampleBusy sampleCmd "ERROR CODE" rfl rfl

/-- Classifier used to state C10: any effect that settles the pending
request (success line, error line, or timeout) is a completion. -/
def isCompletion : Emitted → Bool
  | Emitted.ringAlert => false
  | Emitted.resolved _ => true
  | Emitted.rejectedError _ => true
  | Emitted.rejectedTimeout => true

/-- The whole in-flight record is cleared: empty accumulated response,
no command, no resolve/reject callbacks, timer disarmed. -/
def cleared (s : EngineState) : Prop :=
  s.response = "" ∧ s.command = none ∧ s.resolveFn = false
    ∧ s.rejectFn = false ∧ s.timer = false

/-- The idle-buffer invariant: whenever no command is in flight the
accumulated response is empty. -/
def idleResponseEmpty (s : EngineState) : Prop :=
  s.command = none → s.response = ""

/-- `#clearContext` establishes the fully-cleared record. -/
theorem cleared_clearContext (s : EngineState) : cleared (clearContext s) := by
  simp [cleared, clearContext]

/-- If handling one line settles the pending request, the successor
state is the fully-cleared record. -/
theorem handleData_completion_cleared (s : EngineState) (data : String)
    (h : (handleData s data).2.any isCompletion = true) :
    cleared (handleData s data).1 := by
  by_cases h1 : SBDRING_REGEXP data
  · simp [handleData, h1, isCompletion] at h
  · cases hc : s.command with
    | none => simp [handleData, h1, hc] at h
    | some cmd =>
        by_cases h2 : (cmd.errorRegex.getD ERROR_REGEXP) data
        · have hd : handleData s data
              = (clearContext s, [Emitted.rejectedError s.response]) := by
            simp [handleData, h1, hc, h2]
          rw [hd]
          exact cleared_clearContext s
        · by_cases h3 : cmd.successRegex data
          · simp [handleData, h1, hc, h2, h3]
            exact cleared_clearContext _
          · simp [handleData, h1, hc, h2, h3] at h

/-- `#handleData` preserves the idle-buffer invariant. -/
theorem handleData_idle (s : EngineState) (data : String)
    (hs : idleResponseEmpty s) : idleResponseEmpty (handleData s data).1 := by
  by_cases h1 : SBDRING_REGEXP data
  · simpa [handleData, h1] using hs
  · cases hc : s.command with
    | none => simpa [handleData, h1, hc] using hs
    | some cmd =>
        by_cases h2 : (cmd.errorRegex.getD ERROR_REGEXP) data
        · simp [handleData, h1, hc, h2, idleResponseEmpty, clearContext]
        · by_cases h3 : cmd.successRegex data
          · simp [handleData, h1, hc, h2, h3, idleResponseEmpty, clearContext]
          · cases hb : cmd.bufferRegex with
            | none =>
                simpa [handleData, h1, hc, h2, h3, hb] using hs
            | some br =>
                by_cases h4 : (br data = true ∧ ¬cmd.payload = Payload.text data)
                · simp [handleData, h1, hc, h2, h3, hb, h4, idleResponseEmpty]
                · simpa [handleData, h1, hc, h2, h3, hb, h4] using hs

/-- C10: every completion path clears the whole in-flight record — the
line-handler clears it on success- and error-pattern matches, the timer
callback clears it on expiry — the idle-buffer invariant (no command in
flight → empty accumulated response) holds initially and is preserved by
every engine step, and an `execute` issued after a completion never
rejects busy on account of the completed command. -/
theorem C10_slot_lifecycle (s : EngineState) (data : String)
    (cmd : IridiumCommand) :
    ((handleData s data).2.any isCompletion = true →
      cleared (handleData s data).1)
    ∧ (s.timer = true →
      (timeoutFire s).1 = clearContext s ∧ cleared (timeoutFire s).1
        ∧ (timeoutFire s).2 = [Emitted.rejectedTimeout])
    ∧ idleResponseEmpty initialState
    ∧ (idleResponseEmpty s →
      idleResponseEmpty (handleData s data).1
        ∧ idleResponseEmpty (execute s cmd).1
        ∧ idleResponseEmpty (timeoutFire s).1)
    ∧ ((handleData s data).2.any isCompletion = true →
      (execute (handleData s data).1 cmd).2.2 ≠ ExecStart.rejectedBusy) := by
  refine ⟨handleData_completion_cleared s data, ?_, ?_, ?_, ?_⟩
  · intro ht
    refine ⟨by simp [timeoutFire, ht], ?_, by simp [timeoutFire, ht]⟩
    simp only [timeoutFire, ht, if_true]
    exact cleared_clearContext s
  · intro h
    rfl
  · intro hs
    refine ⟨handleData_idle s data hs, ?_, ?_⟩
    · cases hcmd : s.command with
      | some c => simpa [execute, hcmd] using hs
      | none =>
          by_cases h2 : s.serialOpen
          · cases hp : cmd.payload with
            | buffer b => simp [execute, hcmd, h2, hp, idleResponseEmpty]
            | text t => simp [execute, hcmd, h2, hp, idleResponseEmpty]
          · simpa [execute, hcmd, h2] using hs
    · by_cases ht : s.timer
      · simp [timeoutFire, ht, idleResponseEmpty, clearContext]
      · simpa [timeoutFire, ht] using hs
  · intro h
    have hcl := handleData_completion_cleared s data h
    unfold cleared at hcl
    obtain ⟨-, hcmd, -, -, -⟩ := hcl
    by_cases h2 : (handleData s data).1.serialOpen
    · cases hp : cmd.payload with
      | buffer b => simp [execute, hcmd, h2, hp]
      | text t => simp [execute, hcmd, h2, hp]
    · simp [execute, hcmd, h2]

/-- Witness for C10 at the concrete busy state with a success line `OK`:
the completed slot is cleared, the invariant is preserved, and a
follow-up `execute` is not rejected busy. -/
theorem C10_slot_lifecycle_witness :
    ((handleData sampleBusy "OK").2.any isCompletion = true →
      cleared (handleData sampleBusy "OK").1)
    ∧ (sampleBusy.timer = true →
      (timeoutFire sampleBusy).1 = clearContext sampleBusy
        ∧ cleared (timeoutFire sampleBusy).1
        ∧ (timeoutFire sampleBusy).2 = [Emitted.rejectedTimeout])
    ∧ idleResponseEmpty initialState
    ∧ (idleResponseEmpty sampleBusy →
      idleResponseEmpty (handleData sampleBusy "OK").1
        ∧ idleResponseEmpty (execute sampleBusy sampleCmd).1
        ∧ idleResponseEmpty (timeoutFire sampleBusy).1)
    ∧ ((handleData sampleBusy "OK").2.any isCompletion = true →
      (execute (handleData sampleBusy "OK").1 sampleCmd).2.2
        ≠ ExecStart.rejectedBusy) :=
  C10_slot_lifecycle sampleBusy "OK" sampleCmd

/-- The running byte summation `sum += buffer[i]` of
`writeBinaryShortBurstData` and `calculateChecksum`. -/
def byteSum (m : List Nat) : Nat := m.foldl (fun s b => s + b) 0

/-- The buffer assembled by `writeBinaryShortBurstData` before phase 2:
the message bytes, then `(sum >> 8) & 0xff`, then `sum & 0xff` (the
source sets `output[len+1] = sum & 0xff` first, then shifts and sets
`output[len] = sum & 0xff`). -/
def sbdwbPayload (m : List Nat) : List Nat :=
  m ++ [(byteSum m >>> 8) &&& 255, byteSum m &&& 255]

/-- `calculateChecksum` of `src/utils.ts`: a 2-byte buffer with
`checksum[0] = (sum >> 8) & 0xff` and `checksum[1] = sum & 0xff`. -/
def calculateChecksum (m : List Nat) : List Nat :=
  [(byteSum m >>> 8) &&& 255, byteSum m &&& 255]

/-- `lookupWriteBinaryResult` of `src/index.ts`. -/
def lookupWriteBinaryResult : Nat → String
  | 0 => "SBD message successfully written to the device"
  | 1 => "SBD message write timeout. An insufficient number of bytes were transferred to the device during the transfer period of 60 seconds"
  | 2 => "SBD message checksum sent from DTE does not match the checksum calculated by the device"
  | 3 => "SBD message size is not correct. The maximum mobile originated SBD message length is 340 bytes. The minimum mobile originated SBD message length is 1 byte"
  | _ => "Unknown response code received from the device"

/-- `lookupMTStatus` of `src/index.ts`. -/
def lookupMTStatus : Nat → String
  | 0 => "No MT messages are pending"
  | 1 => "MT message was received during the MO transfer"
  | _ => "Error occured while checking the MT mailbox or receiving a message on the GSS"

/-- `lookupMOStatus` of `src/index.ts` (apostrophes of the original
strings omitted). -/
def lookupMOStatus : Nat → String
  | 0 => "MO transfer was successful"
  | 1 => "MO transfer was successful, but the MT message in the queue was to big to be transferred"
  | 2 => "MO transfer was successful, but the requested location update was no accepted"
  | 3 => "MO transfer was successful"
  | 4 => "MO transfer was successful"
  | 10 => "MO transfer failed. GSS reported that the call did not complete in the allowed time"
  | 11 => "MO transfer failed. MO message queue at the GSS is full"
  | 12 => "MO transfer failed. MO message has too many segments"
  | 13 => "MO transfer failed. GSS reported that the session did not complete"
  | 14 => "MO transfer failed. Invalid segment size"
  | 15 => "MO transfer failed. Access is denied"
  | 16 => "MO transfer failed. ISU has been locked and may not make SBD calls (see +CULK command)"
  | 17 => "MO transfer failed. Gateway not responding (local session timeout)"
  | 18 => "MO transfer failed. Connection lost (RF drop)"
  | 19 => "MO transfer failed. Link failure (A protocol error caused termination of the call)"
  | 32 => "MO transfer failed. No network service, unable to initiate call"
  | 33 => "MO transfer failed. Antenna fault, unable to initiate call"
  | 34 => "MO transfer failed. Radio is disabled, unable to initiate call (see *Rn command)"
  | 35 => "MO transfer failed. ISU is busy, unable to initiate call"
  | 36 => "MO transfer failed. Try later, must wait 3 minutes since last registration"
  | 37 => "MO transfer failed. SBD service is temporarily disabled"
  | 38 => "MO transfer failed. Try later, traffic management period (see +SBDLOE command)"
  | 64 => "MO transfer failed. Band violation (attempt to transmit outside permitted frequency band"
  | 65 => "MO transfer failed. PLL lock failure; hardware error during attempted transmit"
  | _ => "MO transfer failed. Response code not specified in specification"

/-- `SBDSessionResponse` of `src/index.ts`. -/
structure SBDSessionResponse where
  moStatus : Nat
  moStatusText : String
  moMessageSequenceNumber : Nat
  mtStatus : Nat
  mtStatusText : String
  mtMessageSequenceNumber : Nat
  mtMessageLength : Nat
  mtMessagesQueued : Nat
deriving DecidableEq

/-- The error values a pipeline promise can reject with: a plain
`Error(message)` or an `SBDSessionError(message, response?)`. -/
inductive PipeErr where
  | generic (msg : String)
  | session (msg : String) (response : Option SBDSessionResponse)
deriving DecidableEq

/-- Denotational environment for the multi-step pipelines: the eventual
outcome of each sub-command they may issue. `sbdix` carries the result
of matching the accumulated `+SBDIX:` response against
`/\+SBDIX: (d+), (d+), (d+), (d+), (d+), (d+)/` — `none` when the match
fails, otherwise the six captured numbers in source order. -/
structure PipelineEnv where
  write : Except PipeErr Unit
  sbdwbReady : Except PipeErr Unit
  sbdwbCode : Except PipeErr Nat
  cier : Except PipeErr Unit
  cierDisable : Except PipeErr Unit
  sbdix : Except PipeErr (Option (Nat × Nat × Nat × Nat × Nat × Nat))
  mtRead : Except PipeErr String
  clearMT : Except PipeErr Unit
  clearMO : Except PipeErr Unit

/-- `writeBinaryShortBurstData` of `src/index.ts`: phase 1 sends
`AT+SBDWB=<len>` and waits for `READY`; phase 2 writes the payload with
its 2-byte checksum appended, reads the one-digit result code, and
rejects when it is non-zero (error messages are summarised as the fixed
prefix of the source message). -/
def writeBinaryShortBurstDataPipe (m : List Nat) (env : PipelineEnv) :
    List TxWrite × Except PipeErr Unit :=
  let p1 : TxWrite := TxWrite.line ("AT+SBDWB=" ++ toString m.length)
  match env.sbdwbReady with
  | Except.error _ =>
      ([p1], Except.error (PipeErr.generic "Error writing binary message to buffer."))
  | Except.ok _ =>
      match env.sbdwbCode with
      | Except.error _ =>
          ([p1, TxWrite.raw (sbdwbPayload m)],
           Except.error (PipeErr.generic "Error writing binary message to buffer."))
      | Except.ok code =>
          if code > 0 then
            ([p1, TxWrite.raw (sbdwbPayload m)],
             Except.error (PipeErr.generic
               ("Error writing binary message to buffer. "
                 ++ lookupWriteBinaryResult code)))
          else
            ([p1, TxWrite.raw (sbdwbPayload m)], Except.ok ())

/-- `n & 0xff` is `n mod 256`. -/
theorem and255_eq_mod (n : Nat) : n &&& 255 = n % 256 := by
  have h := Nat.and_pow_two_sub_one_eq_mod n 8
  norm_num at h
  exact h

/-- `n >> 8` is `n / 256`. -/
theorem shiftRight8_eq_div (n : Nat) : n >>> 8 = n / 256 := by
  have h := Nat.shiftRight_eq_div_pow n 8
  norm_num at h
  exact h

/-- `(n >> 8) & 0xff` is the high byte of the low 16 bits of `n`. -/
theorem highByte_eq (n : Nat) : (n >>> 8) &&& 255 = n % 65536 / 256 := by
  rw [shiftRight8_eq_div, and255_eq_mod]
  have h := (Nat.mod_mul_right_div_self n 256 256).symm
  norm_num at h
  exact h

/-- `n & 0xff` is the low byte of the low 16 bits of `n`. -/
theorem lowByte_eq (n : Nat) : n &&& 255 = n % 65536 % 256 := by
  rw [and255_eq_mod]
  exact (Nat.mod_mod_of_dvd n (by norm_num)).symm

/-- The running summation equals the list sum. -/
theorem byteSum_eq_sum (m : List Nat) : byteSum m = m.sum := by
  have h : ∀ (l : List Nat) (a : Nat),
      l.foldl (fun s b => s + b) a = a + l.sum := by
    intro l
    induction l with
    | nil => intro a; simp
    | cons x xs ih =>
        intro a
        simp [List.foldl, ih, List.sum_cons]
        omega
  simpa using h m 0

/-- C2: the raw bytes written in phase 2 of `writeBinaryShortBurstData`
are exactly the message followed by two checksum bytes — the high byte
of `sum(bytes) mod 2^16` first, then its low byte — and
`calculateChecksum` of `src/utils.ts` computes the same two bytes. -/
theorem C2_checksum (m : List Nat) (env : PipelineEnv) :
    sbdwbPayload m = m ++ [m.sum % 65536 / 256, m.sum % 65536 % 256]
    ∧ calculateChecksum m = [m.sum % 65536 / 256, m.sum % 65536 % 256]
    ∧ sbdwbPayload m = m ++ calculateChecksum m
    ∧ (env.sbdwbReady = Except.ok () →
        (writeBinaryShortBurstDataPipe m env).1
          = [TxWrite.line ("AT+SBDWB=" ++ toString m.length),
             TxWrite.raw (sbdwbPayload m)]) := by
  have hck : calculateChecksum m
      = [m.sum % 65536 / 256, m.sum % 65536 % 256] := by
    unfold calculateChecksum
    rw [highByte_eq, lowByte_eq, byteSum_eq_sum]
  refine ⟨?_, hck, rfl, ?_⟩
  · unfold sbdwbPayload
    rw [highByte_eq, lowByte_eq, byteSum_eq_sum]
  · intro hready
    unfold writeBinaryShortBurstDataPipe
    rw [hready]
    cases hcode : env.sbdwbCode with
    | error e => rfl
    | ok code => by_cases hc : code > 0 <;> simp [hc]

/-- Sample all-success pipeline environment used by concrete witnesses:
the `+SBDIX` response parses as `1, 42, 1, 7, 11, 0`. -/
def sampleEnvOk : PipelineEnv :=
  { write := Except.ok (), sbdwbReady := Except.ok (),
    sbdwbCode := Except.ok 0, cier := Except.ok (),
    cierDisable := Except.ok (),
    sbdix := Except.ok (some (1, 42, 1, 7, 11, 0)),
    mtRead := Except.ok "WORLD", clearMT := Except.ok (),
    clearMO := Except.ok () }

/-- Witness for C2 on the payload `[0x41, 0x42, 0x43]` (sum `0xC6`). -/
theorem C2_checksum_witness :
    sbdwbPayload [65, 66, 67]
      = [65, 66, 67]
        ++ [[65, 66, 67].sum % 65536 / 256, [65, 66, 67].sum % 65536 % 256]
    ∧ calculateChecksum [65, 66, 67]
      = [[65, 66, 67].sum % 65536 / 256, [65, 66, 67].sum % 65536 % 256]
    ∧ sbdwbPayload [65, 66, 67] = [65, 66, 67] ++ calculateChecksum [65, 66, 67]
    ∧ (sampleEnvOk.sbdwbReady = Except.ok () →
        (writeBinaryShortBurstDataPipe [65, 66, 67] sampleEnvOk).1
          = [TxWrite.line ("AT+SBDWB=" ++ toString ([65, 66, 67] : List Nat).length),
             TxWrite.raw (sbdwbPayload [65, 66, 67])]) :=
  C2_checksum [65, 66, 67] sampleEnvOk

/-- `waitForNetwork` as a pipeline step: one `AT+CIER=1,1,0,0` execute
whose success is the awaited `+CIEV` line, then — only after that
completes — `indicatorEventReportingDisable` (`AT+CIER=1,0,0,0`), whose
result is awaited before the returned promise resolves. -/
def waitForNetworkPipe (env : PipelineEnv) : List TxWrite × Except PipeErr Unit :=
  match env.cier with
  | Except.error e => ([TxWrite.line "AT+CIER=1,1,0,0"], Except.error e)
  | Except.ok _ =>
      match env.cierDisable with
      | Except.error e =>
          ([TxWrite.line "AT+CIER=1,1,0,0", TxWrite.line "AT+CIER=1,0,0,0"],
           Except.error e)
      | Except.ok _ =>
          ([TxWrite.line "AT+CIER=1,1,0,0", TxWrite.line "AT+CIER=1,0,0,0"],
           Except.ok ())

/-- `readShortBurstTextData` as a pipeline step: execute `AT+SBDRT`,
then `finally` clear the MT buffer (`AT+SBDD1`). A rejection from the
`finally` callback replaces the original outcome, as in JS promises. -/
def readShortBurstTextDataPipe (env : PipelineEnv) :
    List TxWrite × Except PipeErr String :=
  ([TxWrite.line "AT+SBDRT", TxWrite.line "AT+SBDD1"],
   match env.clearMT with
   | Except.error e2 => Except.error e2
   | Except.ok _ => env.mtRead)

/-- The `SBDSessionResponse` that `initiateSessionExtended` assembles
from one matched `+SBDIX:` line. The source passes `moStatus` to
`lookupMTStatus` (line 822), so the model does too. -/
def mkSessionResponse (mo momsn mt mtmsn mtlen mtq : Nat) : SBDSessionResponse :=
  { moStatus := mo, moStatusText := lookupMOStatus mo,
    moMessageSequenceNumber := momsn,
    mtStatus := mt, mtStatusText := lookupMTStatus mo,
    mtMessageSequenceNumber := mtmsn,
    mtMessageLength := mtlen,
    mtMessagesQueued := mtq }

/-- `initiateSessionExtended` of `src/index.ts`: execute `AT+SBDIXA`,
match the accumulated `+SBDIX:` response; on `moStatus > 4` throw an
`SBDSessionError` carrying the structured response; on `mtStatus == 1`
read the MT buffer before resolving; the unhandled `mtStatus ≥ 3` arm of
the source switch falls through and resolves with `undefined` (modelled
`none`). -/
def initiateSessionExtendedPipe (env : PipelineEnv) :
    List TxWrite × Except PipeErr (Option SBDSessionResponse) :=
  match env.sbdix with
  | Except.error e => ([TxWrite.line "AT+SBDIXA"], Except.error e)
  | Except.ok none =>
      ([TxWrite.line "AT+SBDIXA"],
       Except.error (PipeErr.session "Unexpected SBDIX response" none))
  | Except.ok (some (mo, momsn, mt, mtmsn, mtlen, mtq)) =>
      let response := mkSessionResponse mo momsn mt mtmsn mtlen mtq
      if mo > 4 then
        ([TxWrite.line "AT+SBDIXA"],
         Except.error (PipeErr.session
           ("MO transfer failed with status code " ++ toString mo)
           (some response)))
      else if mt == 0 then
        ([TxWrite.line "AT+SBDIXA"], Except.ok (some response))
      else if mt == 1 then
        (TxWrite.line "AT+SBDIXA" :: (readShortBurstTextDataPipe env).1,
         match (readShortBurstTextDataPipe env).2 with
         | Except.error e => Except.error e
         | Except.ok _ => Except.ok (some response))
      else if mt == 2 then
        ([TxWrite.line "AT+SBDIXA"], Except.ok (some response))
      else
        ([TxWrite.line "AT+SBDIXA"], Except.ok none)

/-- `sendTextMessage` of `src/index.ts`: optionally compress through the
external codec, write the text (`AT+SBDWT=`), wait for network, initiate
the session, and clear the MO buffer only inside the session-success
continuation; any rejection short-circuits to the outer reject. -/
def sendTextMessagePipe (codec : String → String) (message : String)
    (compressed : Bool) (env : PipelineEnv) :
    List TxWrite × Except PipeErr (Option SBDSessionResponse) :=
  let text := if compressed then codec message else message
  let w0 : TxWrite := TxWrite.line ("AT+SBDWT=" ++ text)
  match env.write with
  | Except.error e => ([w0], Except.error e)
  | Except.ok _ =>
      match (waitForNetworkPipe env).2 with
      | Except.error e => (w0 :: (waitForNetworkPipe env).1, Except.error e)
      | Except.ok _ =>
          match (initiateSessionExtendedPipe env).2 with
          | Except.error e =>
              (w0 :: (waitForNetworkPipe env).1
                 ++ (initiateSessionExtendedPipe env).1, Except.error e)
          | Except.ok result =>
              match env.clearMO with
              | Except.error e =>
                  (w0 :: (waitForNetworkPipe env).1
                     ++ (initiateSessionExtendedPipe env).1
                     ++ [TxWrite.line "AT+SBDD0"], Except.error e)
              | Except.ok _ =>
                  (w0 :: (waitForNetworkPipe env).1
                     ++ (initiateSessionExtendedPipe env).1
                     ++ [TxWrite.line "AT+SBDD0"], Except.ok result)

/-- `sendBinaryMessage` of `src/index.ts`: the binary two-phase write,
then the same wait-for-network → session → clear-MO chain as the text
pipeline. -/
def sendBinaryMessagePipe (message : List Nat) (env : PipelineEnv) :
    List TxWrite × Except PipeErr (Option SBDSessionResponse) :=
  match (writeBinaryShortBurstDataPipe message env).2 with
  | Except.error e => ((writeBinaryShortBurstDataPipe message env).1, Except.error e)
  | Except.ok _ =>
      match (waitForNetworkPipe env).2 with
      | Except.error e =>
          ((writeBinaryShortBurstDataPipe message env).1
             ++ (waitForNetworkPipe env).1, Except.error e)
      | Except.ok _ =>
          match (initiateSessionExtendedPipe env).2 with
          | Except.error e =>
              ((writeBinaryShortBurstDataPipe message env).1
                 ++ (waitForNetworkPipe env).1
                 ++ (initiateSessionExtendedPipe env).1, Except.error e)
          | Except.ok result =>
              match env.clearMO with
              | Except.error e =>
                  ((writeBinaryShortBurstDataPipe message env).1
                     ++ (waitForNetworkPipe env).1
                     ++ (initiateSessionExtendedPipe env).1
                     ++ [TxWrite.line "AT+SBDD0"], Except.error e)
              | Except.ok _ =>
                  ((writeBinaryShortBurstDataPipe message env).1
                     ++ (waitForNetworkPipe env).1
                     ++ (initiateSessionExtendedPipe env).1
                     ++ [TxWrite.line "AT+SBDD0"], Except.ok result)

/-- `mailboxCheck` of `src/index.ts`:
`sendTextMessage('', { signalQuality, timeoutMs, compressed: false }).then()`. -/
def mailboxCheckPipe (codec : String → String) (env : PipelineEnv) :
    List TxWrite × Except PipeErr Unit :=
  ((sendTextMessagePipe codec "" false env).1,
   (sendTextMessagePipe codec "" false env).2.map fun _ => ())

/-- No `AT+SBDW*` write line is the `AT+SBDD0` clear command (the fixed
prefix alone is longer than `AT+SBDD0`). -/
theorem sbdwt_ne_sbdd0 (text : String) :
    TxWrite.line ("AT+SBDWT=" ++ text) ≠ TxWrite.line "AT+SBDD0" := by
  intro h
  have h2 : ("AT+SBDWT=" ++ text) = "AT+SBDD0" := by
    injection h
  have h3 := congrArg String.length h2
  rw [String.length_append] at h3
  have h4 : ("AT+SBDWT=" : String).length = 9 := rfl
  have h5 : ("AT+SBDD0" : String).length = 8 := rfl
  omega

/-- The binary write phase-1 line is never `AT+SBDD0`. -/
theorem sbdwb_ne_sbdd0 (suffix : String) :
    TxWrite.line ("AT+SBDWB=" ++ suffix) ≠ TxWrite.line "AT+SBDD0" := by
  intro h
  have h2 : ("AT+SBDWB=" ++ suffix) = "AT+SBDD0" := by
    injection h
  have h3 := congrArg String.length h2
  rw [String.length_append] at h3
  have h4 : ("AT+SBDWB=" : String).length = 9 := rfl
  have h5 : ("AT+SBDD0" : String).length = 8 := rfl
  omega

/-- `waitForNetwork` never issues `AT+SBDD0`. -/
theorem sbdd0_not_in_wait (env : PipelineEnv) :
    (TxWrite.line "AT+SBDD0") ∉ (waitForNetworkPipe env).1 := by
  unfold waitForNetworkPipe
  cases env.cier with
  | error e => simp
  | ok u =>
      cases env.cierDisable with
      | error e => simp
      | ok u2 => simp

/-- `initiateSessionExtended` never issues `AT+SBDD0` itself (it issues
at most `AT+SBDIXA`, `AT+SBDRT` and `AT+SBDD1`). -/
theorem sbdd0_not_in_session (env : PipelineEnv) :
    (TxWrite.line "AT+SBDD0") ∉ (initiateSessionExtendedPipe env).1 := by
  unfold initiateSessionExtendedPipe readShortBurstTextDataPipe
  cases env.sbdix with
  | error e => simp
  | ok o =>
      cases o with
      | none => simp
      | some t =>
          obtain ⟨mo, momsn, mt, mtmsn, mtlen, mtq⟩ := t
          by_cases h1 : mo > 4
          · simp [h1]
          · by_cases h2 : mt == 0
            · simp [h1, h2]
            · by_cases h3 : mt == 1
              · simp [h1, h2, h3]
              · by_cases h4 : mt == 2
                · simp [h1, h2, h3, h4]
                · simp [h1, h2, h3, h4]

/-- The two-phase binary write never issues `AT+SBDD0`. -/
theorem sbdd0_not_in_wb (m : List Nat) (env : PipelineEnv) :
    (TxWrite.line "AT+SBDD0") ∉ (writeBinaryShortBurstDataPipe m env).1 := by
  unfold writeBinaryShortBurstDataPipe
  cases env.sbdwbReady with
  | error e =>
      intro hmem
      rcases List.mem_singleton.mp hmem with h
      exact sbdwb_ne_sbdd0 _ h.symm
  | ok u =>
      have hgoal : (TxWrite.line "AT+SBDD0")
          ∉ [TxWrite.line ("AT+SBDWB=" ++ toString m.length),
             TxWrite.raw (sbdwbPayload m)] := by
        intro hmem
        rcases List.mem_cons.mp hmem with h | h
        · exact sbdwb_ne_sbdd0 _ h.symm
        · rcases List.mem_singleton.mp h with h2
          exact TxWrite.noConfusion h2
      cases env.sbdwbCode with
      | error e => exact hgoal
      | ok code =>
          by_cases hc : code > 0
          · simpa [hc] using hgoal
          · simpa [hc] using hgoal

/-- Environment in which the MT-read subpath of step 4 fails. -/
def sampleEnvMtFail : PipelineEnv :=
  { sampleEnvOk with mtRead := Except.error (PipeErr.generic "SBDRT failed") }

/-- Counterexample to C3 as stated: when the auto-read of the MT message
(triggered by `mtStatus == 1`) fails, the pipeline rejects without ever
issuing `AT+SBDD0` — the clear-MO step is not unconditional. -/
theorem C3_counterexample :
    (TxWrite.line "AT+SBDD0")
      ∉ (sendTextMessagePipe id "hi" false sampleEnvMtFail).1
    ∧ (sendTextMessagePipe id "hi" false sampleEnvMtFail).2
        = Except.error (PipeErr.generic "SBDRT failed") := by
  constructor
  · decide
  · rfl

/-- C3 (amended): in both send pipelines, once the session-initiate step
is reached, `AT+SBDD0` is issued iff step 4 resolves (including the
MT-read subpath when `mtStatus == 1`); on step-4 failure the pipeline
rejects without issuing `AT+SBDD0`; on success with `AT+SBDD0`
succeeding, the promise resolves with step 4's resolution value. -/
theorem C3_amended (codec : String → String) (message : String)
    (compressed : Bool) (bmsg : List Nat) (env : PipelineEnv) :
    (env.write = Except.ok () → (waitForNetworkPipe env).2 = Except.ok () →
      (∀ v, (initiateSessionExtendedPipe env).2 = Except.ok v →
        (TxWrite.line "AT+SBDD0")
            ∈ (sendTextMessagePipe codec message compressed env).1
        ∧ (env.clearMO = Except.ok () →
            (sendTextMessagePipe codec message compressed env).2 = Except.ok v))
      ∧ (∀ e, (initiateSessionExtendedPipe env).2 = Except.error e →
        (TxWrite.line "AT+SBDD0")
            ∉ (sendTextMessagePipe codec message compressed env).1
        ∧ (sendTextMessagePipe codec message compressed env).2 = Except.error e))
    ∧ ((writeBinaryShortBurstDataPipe bmsg env).2 = Except.ok () →
        (waitForNetworkPipe env).2 = Except.ok () →
      (∀ v, (initiateSessionExtendedPipe env).2 = Except.ok v →
        (TxWrite.line "AT+SBDD0") ∈ (sendBinaryMessagePipe bmsg env).1
        ∧ (env.clearMO = Except.ok () →
            (sendBinaryMessagePipe bmsg env).2 = Except.ok v))
      ∧ (∀ e, (initiateSessionExtendedPipe env).2 = Except.error e →
        (TxWrite.line "AT+SBDD0") ∉ (sendBinaryMessagePipe bmsg env).1
        ∧ (sendBinaryMessagePipe bmsg env).2 = Except.error e)) := by
  constructor
  · intro hw hwn
    constructor
    · intro v hsess
      constructor
      · cases hmoc : env.clearMO with
        | error e => simp [sendTextMessagePipe, hw, hwn, hsess, hmoc]
        | ok u => simp [sendTextMessagePipe, hw, hwn, hsess, hmoc]
      · intro hmo
        simp [sendTextMessagePipe, hw, hwn, hsess, hmo]
    · intro e hsess
      refine ⟨?_, by simp [sendTextMessagePipe, hw, hwn, hsess]⟩
      simp only [sendTextMessagePipe, hw, hwn, hsess]
      intro hmem
      rcases List.mem_cons.mp hmem with h | h
      · exact sbdwt_ne_sbdd0 _ h.symm
      · rcases List.mem_append.mp h with h | h
        · exact sbdd0_not_in_wait env h
        · exact sbdd0_not_in_session env h
  · intro hwb hwn
    constructor
    · intro v hsess
      constructor
      · cases hmoc : env.clearMO with
        | error e => simp [sendBinaryMessagePipe, hwb, hwn, hsess, hmoc]
        | ok u => simp [sendBinaryMessagePipe, hwb, hwn, hsess, hmoc]
      · intro hmo
        simp [sendBinaryMessagePipe, hwb, hwn, hsess, hmo]
    · intro e hsess
      refine ⟨?_, by simp [sendBinaryMessagePipe, hwb, hwn, hsess]⟩
      simp only [sendBinaryMessagePipe, hwb, hwn, hsess]
      intro hmem
      rcases List.mem_append.mp hmem with h | h
      · rcases List.mem_append.mp h with h | h
        · exact sbdd0_not_in_wb bmsg env h
        · exact sbdd0_not_in_wait env h
      · exact sbdd0_not_in_session env h

/-- Witness for C3 (amended) at the all-success environment: both
pipelines issue `AT+SBDD0` and resolve with the session result. -/
theorem C3_amended_witness :
    ((TxWrite.line "AT+SBDD0")
        ∈ (sendTextMessagePipe id "HELLO" false sampleEnvOk).1
      ∧ (sendTextMessagePipe id "HELLO" false sampleEnvOk).2
          = Except.ok (some (mkSessionResponse 1 42 1 7 11 0)))
    ∧ ((TxWrite.line "AT+SBDD0") ∈ (sendBinaryMessagePipe [1, 2, 3] sampleEnvOk).1
      ∧ (sendBinaryMessagePipe [1, 2, 3] sampleEnvOk).2
          = Except.ok (some (mkSessionResponse 1 42 1 7 11 0))) := by
  have h := C3_amended id "HELLO" false [1, 2, 3] sampleEnvOk
  have h1 := (h.1 rfl rfl).1 (some (mkSessionResponse 1 42 1 7 11 0)) rfl
  have h2 := (h.2 rfl rfl).1 (some (mkSessionResponse 1 42 1 7 11 0)) rfl
  exact ⟨⟨h1.1, h1.2 rfl⟩, ⟨h2.1, h2.2 rfl⟩⟩

/-- C7: whenever the parsed `+SBDIX` fields have `moStatus > 4`,
`initiateSessionExtended` rejects with an `SBDSessionError` whose
`response` carries the full structured session result — all eight
fields as parsed (with `mtStatusText` looked up from `moStatus`,
exactly as the source does). -/
theorem C7_session_error (mo momsn mt mtmsn mtlen mtq : Nat)
    (env : PipelineEnv) (hmo : mo > 4)
    (hix : env.sbdix = Except.ok (some (mo, momsn, mt, mtmsn, mtlen, mtq))) :
    (initiateSessionExtendedPipe env).2
      = Except.error (PipeErr.session
          ("MO transfer failed with status code " ++ toString mo)
          (some { moStatus := mo, moStatusText := lookupMOStatus mo,
                  moMessageSequenceNumber := momsn,
                  mtStatus := mt, mtStatusText := lookupMTStatus mo,
                  mtMessageSequenceNumber := mtmsn,
                  mtMessageLength := mtlen,
                  mtMessagesQueued := mtq })) := by
  simp only [initiateSessionExtendedPipe, hix]
  rw [if_pos hmo]
  rfl

/-- Environment whose `+SBDIX` response parses as `13, 5, 0, 0, 0, 0`
(an `moStatus` in the failure range). -/
def sampleEnvMoFail : PipelineEnv :=
  { sampleEnvOk with sbdix := Except.ok (some (13, 5, 0, 0, 0, 0)) }

/-- Witness for C7 at `moStatus = 13`. -/
theorem C7_session_error_witness :
    (initiateSessionExtendedPipe sampleEnvMoFail).2
      = Except.error (PipeErr.session
          ("MO transfer failed with status code " ++ toString 13)
          (some { moStatus := 13, moStatusText := lookupMOStatus 13,
                  moMessageSequenceNumber := 5,
                  mtStatus := 0, mtStatusText := lookupMTStatus 13,
                  mtMessageSequenceNumber := 0,
                  mtMessageLength := 0,
                  mtMessagesQueued := 0 })) :=
  C7_session_error 13 5 0 0 0 0 sampleEnvMoFail (by decide) rfl

/-- C9: `mailboxCheck` issues exactly the same command sequence as
`sendTextMessage("")` with compression disabled, and settles exactly as
that call does, the resolution value discarded. -/
theorem C9_mailboxCheck (codec : String → String) (env : PipelineEnv) :
    (mailboxCheckPipe codec env).1 = (sendTextMessagePipe codec "" false env).1
    ∧ (∀ v, (sendTextMessagePipe codec "" false env).2 = Except.ok v →
        (mailboxCheckPipe codec env).2 = Except.ok ())
    ∧ (∀ e, (sendTextMessagePipe codec "" false env).2 = Except.error e →
        (mailboxCheckPipe codec env).2 = Except.error e) := by
  refine ⟨rfl, ?_, ?_⟩
  · intro v h
    simp [mailboxCheckPipe, h, Except.map]
  · intro e h
    simp [mailboxCheckPipe, h, Except.map]

/-- Witness for C9 at the all-success environment. -/
theorem C9_mailboxCheck_witness :
    (mailboxCheckPipe id sampleEnvOk).1
      = (sendTextMessagePipe id "" false sampleEnvOk).1
    ∧ (mailboxCheckPipe id sampleEnvOk).2 = Except.ok () := by
  refine ⟨(C9_mailboxCheck id sampleEnvOk).1, ?_⟩
  exact (C9_mailboxCheck id sampleEnvOk).2.1
    (some (mkSessionResponse 1 42 1 7 11 0)) rfl

/-- The dynamic success pattern of `waitForNetwork`:
`new RegExp("^\\+CIEV:0,[" + signalQuality + "-5]")` — the line starts
with `+CIEV:0,` and the next character lies in the class from the digit
of `signalQuality` to `5`. -/
def cievSuccessRegex (sq : Nat) (s : String) : Bool :=
  match s.data with
  | '+' :: 'C' :: 'I' :: 'E' :: 'V' :: ':' :: '0' :: ',' :: c :: _ =>
      decide (Char.ofNat (48 + sq) ≤ c ∧ c ≤ '5')
  | _ => false

/-- The command descriptor built by `waitForNetwork` in `src/index.ts`
(`timeoutMs` defaults to the indefinite-timeout sentinel). -/
def waitForNetworkCmd (sq : Nat) (timeoutMs : Int := INDEFINITE_TIMEOUT) :
    IridiumCommand :=
  { payload := Payload.text "AT+CIER=1,1,0,0",
    commandDescription :=
      "Turning network signal monitoring on. Waiting for signal quality of "
        ++ toString sq,
    timeoutMs := timeoutMs,
    successRegex := cievSuccessRegex sq }

/-- An inbound signal-quality report line `+CIEV:0,q` for a one-digit `q`. -/
def cievLine (q : Nat) : String :=
  String.mk ['+', 'C', 'I', 'E', 'V', ':', '0', ',', Char.ofNat (48 + q)]

/-- While a `waitForNetwork` command is in flight, a `+CIEV:0,q` line
either matches the dynamic success pattern — resolving with the
accumulated response and clearing the slot — or leaves the state
untouched (such lines match neither `^SBDRING` nor the default
`^ERROR`, and the command has no buffer pattern). -/
theorem handleData_waitCmd_shape (sq : Nat) (tmo : Int) (s : EngineState)
    (d : Nat) (hc : s.command = some (waitForNetworkCmd sq tmo)) :
    handleData s (cievLine d)
      = if cievSuccessRegex sq (cievLine d) then
          (clearContext s, [Emitted.resolved s.response])
        else (s, []) := by
  have h1 : SBDRING_REGEXP (cievLine d) = false := rfl
  have h2 : ERROR_REGEXP (cievLine d) = false := rfl
  simp only [handleData, h1, hc, waitForNetworkCmd, Option.getD, h2,
    Bool.false_eq_true, if_false]

/-- C6: for `minSignal` in `1..5`, the `waitForNetwork` command completes
exactly on an inbound `+CIEV:0,q` line with `minSignal ≤ q ≤ 5` (lines
with `q` outside that range leave the command running and the state
untouched), its default timeout is the indefinite-timeout sentinel, and
on completion a follow-up `AT+CIER=1,0,0,0` is issued and its result
awaited before the promise resolves. -/
theorem C6_waitForNetwork (sq d : Nat) (r : String) (ser rs rj tm : Bool)
    (tmo : Int) (env : PipelineEnv)
    (hsq1 : 1 ≤ sq) (hsq5 : sq ≤ 5) (hd : d ≤ 9) :
    ((handleData { serialOpen := ser, command := some (waitForNetworkCmd sq tmo),
                   response := r, resolveFn := rs, rejectFn := rj, timer := tm }
        (cievLine d)).2 = [Emitted.resolved r]
      ↔ (sq ≤ d ∧ d ≤ 5))
    ∧ (¬(sq ≤ d ∧ d ≤ 5) →
      handleData { serialOpen := ser, command := some (waitForNetworkCmd sq tmo),
                   response := r, resolveFn := rs, rejectFn := rj, timer := tm }
          (cievLine d)
        = ({ serialOpen := ser, command := some (waitForNetworkCmd sq tmo),
             response := r, resolveFn := rs, rejectFn := rj, timer := tm }, []))
    ∧ (waitForNetworkCmd sq).timeoutMs = INDEFINITE_TIMEOUT
    ∧ ((waitForNetworkPipe env).2 = Except.ok () →
      (waitForNetworkPipe env).1
          = [TxWrite.line "AT+CIER=1,1,0,0", TxWrite.line "AT+CIER=1,0,0,0"]
        ∧ env.cierDisable = Except.ok ()) := by
  have hkey : (cievSuccessRegex sq (cievLine d) = true) ↔ (sq ≤ d ∧ d ≤ 5) := by
    interval_cases sq <;> interval_cases d <;> decide
  have hshape := handleData_waitCmd_shape sq tmo
    { serialOpen := ser, command := some (waitForNetworkCmd sq tmo),
      response := r, resolveFn := rs, rejectFn := rj, timer := tm } d rfl
  refine ⟨?_, ?_, rfl, ?_⟩
  · rw [hshape]
    by_cases h : sq ≤ d ∧ d ≤ 5
    · simp [hkey.mpr h, h]
    · have hc : cievSuccessRegex sq (cievLine d) = false := by
        cases hx : cievSuccessRegex sq (cievLine d) with
        | false => rfl
        | true => exact absurd (hkey.mp hx) h
      simp [hc, h]
  · intro h
    have hc : cievSuccessRegex sq (cievLine d) = false := by
      cases hx : cievSuccessRegex sq (cievLine d) with
      | false => rfl
      | true => exact absurd (hkey.mp hx) h
    rw [hshape, hc]
    simp
  · intro hok
    unfold waitForNetworkPipe at hok ⊢
    cases hc2 : env.cier with
    | error e2 => simp [hc2] at hok
    | ok u =>
        cases hc : env.cierDisable with
        | error e => simp [hc2, hc] at hok
        | ok u2 => simp [hc2, hc]

/-- Witness for C6: with `minSignal = 2` the line `+CIEV:0,3` completes
the command, the default timeout is the sentinel, and the all-success
environment issues the follow-up disable before resolving. -/
theorem C6_waitForNetwork_witness :
    (handleData { serialOpen := true,
                  command := some (waitForNetworkCmd 2 INDEFINITE_TIMEOUT),
                  response := "", resolveFn := true, rejectFn := true,
                  timer := false } (cievLine 3)).2 = [Emitted.resolved ""]
    ∧ (waitForNetworkCmd 2).timeoutMs = INDEFINITE_TIMEOUT
    ∧ (waitForNetworkPipe sampleEnvOk).1
        = [TxWrite.line "AT+CIER=1,1,0,0", TxWrite.line "AT+CIER=1,0,0,0"]
    ∧ sampleEnvOk.cierDisable = Except.ok () := by
  have h := C6_waitForNetwork 2 3 "" true true true false INDEFINITE_TIMEOUT
    sampleEnvOk (by decide) (by decide) (by decide)
  exact ⟨h.1.mpr (by decide), h.2.2.1, (h.2.2.2 rfl).1, (h.2.2.2 rfl).2⟩

/-- The buffer pattern `/^\+SBDMTA:[0-1]/` of `getRingAlertEnabled`. -/
def SBDMTA_BUFFER_REGEXP (s : String) : Bool :=
  match s.data with
  | '+' :: 'S' :: 'B' :: 'D' :: 'M' :: 'T' :: 'A' :: ':' :: c :: _ =>
      decide ('0' ≤ c ∧ c ≤ '1')
  | _ => false

/-- The command descriptor built by `getRingAlertEnabled` (`AT+SBDMTA?`). -/
def getRingAlertEnabledCmd : IridiumCommand :=
  { payload := Payload.text "AT+SBDMTA?",
    commandDescription := "Querying ring indication mode",
    timeoutMs := DEFAULT_SIMPLE_TIMEOUT_MS,
    successRegex := OK_REGEXP,
    bufferRegex := some SBDMTA_BUFFER_REGEXP }

/-- The command descriptor built by `ringAlertEnable` (`AT+SBDMTA=1`). -/
def ringAlertEnableCmd : IridiumCommand :=
  { payload := Payload.text "AT+SBDMTA=1",
    commandDescription := "Enabling ring alert",
    timeoutMs := DEFAULT_SIMPLE_TIMEOUT_MS,
    successRegex := OK_REGEXP }

/-- The characters of the first segment of a split on `:` — what
JavaScript `split(":")[0]` yields. -/
def takeUntilColon : List Char → List Char
  | [] => []
  | c :: cs => if c = ':' then [] else c :: takeUntilColon cs

/-- The continuation of `getRingAlertEnabled` applied to the resolved
response string: `result.split(":")[0] === "1"` (source line 873). -/
def getRingAlertEnabledParse (result : String) : Bool :=
  takeUntilColon result.data == ['1']

/-- The engine state while the `AT+SBDMTA?` query is in flight. -/
def sbdmtaQueryState : EngineState :=
  { serialOpen := true, command := some getRingAlertEnabledCmd,
    response := "", resolveFn := true, rejectFn := true, timer := true }

/-- C8 (evaluation at the failing input): `ringAlertEnable` completes on
`OK`; a subsequent `getRingAlertEnabled` buffers the modem report
`+SBDMTA:1` and resolves with it on `OK`, but the continuation compares
`split(":")[0]` — the literal `+SBDMTA` — against `1`, so it returns
`false` where the claim requires `true` (and also `false` for
`+SBDMTA:0`, which matches the claim only by accident). -/
theorem C8_ring_alert_query_eval :
    (handleData { serialOpen := true, command := some ringAlertEnableCmd,
                  response := "", resolveFn := true, rejectFn := true,
                  timer := true } "OK").2 = [Emitted.resolved ""]
    ∧ (handleData sbdmtaQueryState "+SBDMTA:1").2 = []
    ∧ (handleData sbdmtaQueryState "+SBDMTA:1").1.response = "+SBDMTA:1"
    ∧ (handleData (handleData sbdmtaQueryState "+SBDMTA:1").1 "OK").2
        = [Emitted.resolved "+SBDMTA:1"]
    ∧ getRingAlertEnabledParse "+SBDMTA:1" = false
    ∧ getRingAlertEnabledParse "+SBDMTA:0" = false := by
  refine ⟨?_, ?_, ?_, ?_, ?_, ?_⟩ <;> decide

end Iridium
